import Mathlib

/-!
Shallow embedding of the fiftyonedegrees Rust wrapper (src/utils.rs and
src/device_detection.rs). The native 51Degrees engine is opaque: each
wrapper operation is parameterised by a small oracle structure describing
the responses the engine gives (null handles, reported status codes,
rendered property values), and every operation additionally returns the
list of native calls it performed, so that the claims of the form
"fails before any native call" can be stated as an empty trace.
Rust strings are modelled as Lean strings; a CString construction fails
exactly when the string contains an interior NUL character, which for
UTF-8 happens exactly when some character has code point 0.
-/

namespace FiftyOneDegrees

/-- Embeds enum CStringKind of src/utils.rs. -/
inductive CStringKind where
  | FilePath
  | EvidenceKey
  | EvidenceValue
  | PropertyName
  | HashResultSeparator
  deriving DecidableEq, Repr

/-- Embeds the strum Display serialisation of CStringKind: the strum
serialize attributes in src/utils.rs give FilePath the text "evidence key"
and EvidenceKey the text "evidence value". -/
def CStringKind.display : CStringKind → String
  | .FilePath => "evidence key"
  | .EvidenceKey => "evidence value"
  | .EvidenceValue => "evidence value"
  | .PropertyName => "property name"
  | .HashResultSeparator => "hash result separator"

/-- Embeds enum Operation of src/utils.rs. -/
inductive Operation where
  | ReadDataFile
  | InitManager
  | CreateEvidence
  | ApplyEvidence
  | ReadProperty
  deriving DecidableEq, Repr

/-- Embeds the strum Display serialisation of Operation. -/
def Operation.display : Operation → String
  | .ReadDataFile => "read data file"
  | .InitManager => "initialize manager"
  | .CreateEvidence => "create evidence"
  | .ApplyEvidence => "apply evidence"
  | .ReadProperty => "read property"

/-- Embeds enum ReadFileError of src/utils.rs. -/
inductive ReadFileError where
  | NotExists
  | IsNotFile
  deriving DecidableEq, Repr

/-- Embeds the strum AsRefStr serialisation of ReadFileError. -/
def ReadFileError.asRef : ReadFileError → String
  | .NotExists => "file does not exist"
  | .IsNotFile => "is not a file"

/-- Embeds enum FiftyOneDegreesError of src/utils.rs. The static strings of
the Rust type are Lean strings; the optional io::Error cause of IOError is
modelled as an optional string. -/
inductive FiftyOneDegreesError where
  | CStringCreationError (kind : CStringKind)
  | InternalApiError (operation : Operation) (status : Nat) (message : String) (errMsg : String)
  | UnsafeOperationError (msg : String)
  | AssertionError (operation : Operation) (msg : String)
  | IOError (msg : String) (cause : Option String)
  deriving DecidableEq, Repr

/-- Rust Debug rendering of an Option, used by the IOError thiserror format. -/
def rustDebugOption : Option String → String
  | none => "None"
  | some c => "Some(" ++ c ++ ")"

/-- Embeds the thiserror Display implementation derived for
FiftyOneDegreesError in src/utils.rs (the error attribute format strings). -/
def FiftyOneDegreesError.message : FiftyOneDegreesError → String
  | .CStringCreationError kind => "CString creation error for: " ++ kind.display
  | .InternalApiError operation status message errMsg =>
      "FiftyOneDegrees internal API error for operation: " ++ operation.display ++
        ", status code: " ++ toString status ++ ", message: " ++ message ++
        ", error: " ++ errMsg ++ ")"
  | .UnsafeOperationError msg => "FiftyOneDegrees unsafe operation error: " ++ msg
  | .AssertionError operation msg =>
      "FiftyOneDegrees assertion error for operation " ++ operation.display ++ ": " ++ msg
  | .IOError msg cause => "FiftyOneDegrees IO error: " ++ msg ++ ", cause: " ++ rustDebugOption cause

/-- Embeds FiftyOneDegreesError::new_read_file_assertion_error. -/
def FiftyOneDegreesError.newReadFileAssertionError (e : ReadFileError) : FiftyOneDegreesError :=
  .AssertionError .ReadDataFile e.asRef

/-- Embeds type FiftyOneDegreesResult of src/utils.rs. -/
abbrev FiftyOneDegreesResult (α : Type) := Except FiftyOneDegreesError α

/-- True when the string contains an interior NUL byte, the exact condition
under which Rust CString::new rejects it. In UTF-8 a zero byte occurs
exactly at a character with code point 0. -/
def hasInteriorNul (s : String) : Bool :=
  s.toList.any (fun c => c.toNat == 0)

/-- Embeds build_cstring of src/utils.rs: CString::new(str) mapped to
CStringCreationError(kind) on failure. A successful CString is modelled by
the string itself. -/
def build_cstring (kind : CStringKind) (str : String) : FiftyOneDegreesResult String :=
  if hasInteriorNul str then .error (.CStringCreationError kind) else .ok str

/-- The engine status code FIFTYONE_DEGREES_STATUS_SUCCESS. The numeric
values of the status codes come from the bindgen-generated bindings (not
part of src/); they are modelled from the C engine enumeration, which is
sequential from 0 in exactly the order of the match arms of
status_to_error_message in src/utils.rs. -/
def STATUS_SUCCESS : Nat := 0

/-- Embeds status_to_error_message of src/utils.rs. The match arms appear
in the order of the source; the numeric values 0..32 are modelled from the
sequential C engine status enumeration (the constants themselves live in
the generated bindings, outside src/). -/
def status_to_error_message (status : Nat) : String :=
  match status with
  | 0 => "Success"
  | 1 => "Lack of memory"
  | 2 => "Corrupt data"
  | 3 => "Incorrect version"
  | 4 => "File not found"
  | 5 => "File busy"
  | 6 => "File failure"
  | 7 => "Not set (should never be returned)"
  | 8 => "Pointer out of bounds"
  | 9 => "Null pointer"
  | 10 => "Too many open files"
  | 11 => "Required property not present"
  | 12 => "Profile is empty"
  | 13 => "Collection failure"
  | 14 => "File copy error"
  | 15 => "File exists error"
  | 16 => "File write error"
  | 17 => "File read error"
  | 18 => "File permission denied"
  | 19 => "File path too long"
  | 20 => "File end of document"
  | 21 => "File end of documents"
  | 22 => "File end of file"
  | 23 => "Encoding error"
  | 24 => "Invalid collection config"
  | 25 => "Invalid config"
  | 26 => "Insufficient handles"
  | 27 => "Collection index out of range"
  | 28 => "Collection offset out of range"
  | 29 => "Collection file seek fail"
  | 30 => "Collection file read fail"
  | 31 => "Incorrect IP address format"
  | 32 => "Temp file error"
  | _ => "Unknown error"

/-- The state of a native fiftyoneDegreesException struct: its status code
and its optional message (none models a null message pointer). An exception
pointer is modelled as Option ExceptionState, none being a null pointer. -/
structure ExceptionState where
  status : Nat
  message : Option String
  deriving DecidableEq, Repr

/-- Embeds ger_error_msg of src/utils.rs: a null exception pointer gives
"No exception available", a null message pointer gives "No error message
available", otherwise the message itself (Lean strings are always valid
UTF-8, so the lossy-decode fallback of the source never fires here). -/
def ger_error_msg : Option ExceptionState → String
  | none => "No exception available"
  | some e =>
    match e.message with
    | none => "No error message available"
    | some m => m

/-- Embeds verify_exception of src/utils.rs: a null pointer is accepted; a
non-null exception with a status other than SUCCESS becomes an
InternalApiError carrying the status, its description and the exception
message. -/
def verify_exception (exception : Option ExceptionState) (operation : Operation) :
    FiftyOneDegreesResult Unit :=
  match exception with
  | none => .ok ()
  | some e =>
    if e.status ≠ STATUS_SUCCESS then
      .error (.InternalApiError operation e.status (status_to_error_message e.status)
        (ger_error_msg (some e)))
    else
      .ok ()

/-- The host filesystem as seen by Path::exists and Path::is_file. -/
structure FileSystem where
  pathExists : String → Bool
  pathIsFile : String → Bool

/-- Embeds verify_data_file_path of src/utils.rs. -/
def verify_data_file_path (fs : FileSystem) (path : String) : FiftyOneDegreesResult Unit :=
  if !fs.pathExists path then
    .error (FiftyOneDegreesError.newReadFileAssertionError .NotExists)
  else if !fs.pathIsFile path then
    .error (FiftyOneDegreesError.newReadFileAssertionError .IsNotFile)
  else
    .ok ()

/-- Embeds enum PropertyName of src/device_detection.rs (all variants). -/
inductive PropertyName where
  | DeviceId
  | DeviceType
  | CrawlerName
  | HasTouchScreen
  | IsScreenFoldable
  | IsSmallScreen
  | IsEmailBrowser
  | IsEmulatingDesktop
  | IsEmulatingDevice
  | IsWebApp
  | IsConsole
  | IsEReader
  | IsMediaHub
  | IsMobile
  | IsSmartWatch
  | IsTablet
  | IsTv
  | IsCrawler
  | IsArtificialIntelligence
  | NativeBrand
  | NativeDevice
  | NativeModel
  | NativeName
  | NativePlatform
  | BrowserFamily
  | BrowserName
  | BrowserVendor
  | BrowserVersion
  | BrowserReleaseYear
  | BrowserSourceProject
  | BrowserSourceProjectVersion
  | BrowserRank
  | Canvas
  | CookiesCapable
  | CssCanvas
  | DeviceOrientation
  | Fetch
  | Fullscreen
  | GeoLocation
  | IndexedDB
  | InVRMode
  | Javascript
  | Viewport
  | PlatformName
  | PlatformVendor
  | PlatformVersion
  | PlatformReleaseYear
  | PlatformRank
  | HardwareName
  | HardwareVendor
  | HardwareFamily
  | HardwareModel
  | HardwareModelVariants
  | HardwareCarrier
  | HardwareRank
  | OEM
  | ReleaseYear
  | BitsPerPixel
  | PixelRatio
  | ScreenInchesDiagonal
  | ScreenPixelsHeight
  | ScreenPixelsPhysicalHeight
  | ScreenPixelsPhysicalWidth
  | ScreenPixelsWidth
  | ScreenType
  | RegisteredCountry
  | RegisteredName
  | RegisteredOwner
  | Profiles
  | Popularity
  | PriceBand
  | Difference
  | Drift
  | UserAgents
  | Custom (s : String)

/-- Embeds the strum AsRefStr (and identical Display) serialisation of
PropertyName: no serialize attributes are present, so every variant maps to
its own name; the newtype variant Custom maps to the text "Custom". -/
def PropertyName.asRef : PropertyName → String
  | .DeviceId => "DeviceId"
  | .DeviceType => "DeviceType"
  | .CrawlerName => "CrawlerName"
  | .HasTouchScreen => "HasTouchScreen"
  | .IsScreenFoldable => "IsScreenFoldable"
  | .IsSmallScreen => "IsSmallScreen"
  | .IsEmailBrowser => "IsEmailBrowser"
  | .IsEmulatingDesktop => "IsEmulatingDesktop"
  | .IsEmulatingDevice => "IsEmulatingDevice"
  | .IsWebApp => "IsWebApp"
  | .IsConsole => "IsConsole"
  | .IsEReader => "IsEReader"
  | .IsMediaHub => "IsMediaHub"
  | .IsMobile => "IsMobile"
  | .IsSmartWatch => "IsSmartWatch"
  | .IsTablet => "IsTablet"
  | .IsTv => "IsTv"
  | .IsCrawler => "IsCrawler"
  | .IsArtificialIntelligence => "IsArtificialIntelligence"
  | .NativeBrand => "NativeBrand"
  | .NativeDevice => "NativeDevice"
  | .NativeModel => "NativeModel"
  | .NativeName => "NativeName"
  | .NativePlatform => "NativePlatform"
  | .BrowserFamily => "BrowserFamily"
  | .BrowserName => "BrowserName"
  | .BrowserVendor => "BrowserVendor"
  | .BrowserVersion => "BrowserVersion"
  | .BrowserReleaseYear => "BrowserReleaseYear"
  | .BrowserSourceProject => "BrowserSourceProject"
  | .BrowserSourceProjectVersion => "BrowserSourceProjectVersion"
  | .BrowserRank => "BrowserRank"
  | .Canvas => "Canvas"
  | .CookiesCapable => "CookiesCapable"
  | .CssCanvas => "CssCanvas"
  | .DeviceOrientation => "DeviceOrientation"
  | .Fetch => "Fetch"
  | .Fullscreen => "Fullscreen"
  | .GeoLocation => "GeoLocation"
  | .IndexedDB => "IndexedDB"
  | .InVRMode => "InVRMode"
  | .Javascript => "Javascript"
  | .Viewport => "Viewport"
  | .PlatformName => "PlatformName"
  | .PlatformVendor => "PlatformVendor"
  | .PlatformVersion => "PlatformVersion"
  | .PlatformReleaseYear => "PlatformReleaseYear"
  | .PlatformRank => "PlatformRank"
  | .HardwareName => "HardwareName"
  | .HardwareVendor => "HardwareVendor"
  | .HardwareFamily => "HardwareFamily"
  | .HardwareModel => "HardwareModel"
  | .HardwareModelVariants => "HardwareModelVariants"
  | .HardwareCarrier => "HardwareCarrier"
  | .HardwareRank => "HardwareRank"
  | .OEM => "OEM"
  | .ReleaseYear => "ReleaseYear"
  | .BitsPerPixel => "BitsPerPixel"
  | .PixelRatio => "PixelRatio"
  | .ScreenInchesDiagonal => "ScreenInchesDiagonal"
  | .ScreenPixelsHeight => "ScreenPixelsHeight"
  | .ScreenPixelsPhysicalHeight => "ScreenPixelsPhysicalHeight"
  | .ScreenPixelsPhysicalWidth => "ScreenPixelsPhysicalWidth"
  | .ScreenPixelsWidth => "ScreenPixelsWidth"
  | .ScreenType => "ScreenType"
  | .RegisteredCountry => "RegisteredCountry"
  | .RegisteredName => "RegisteredName"
  | .RegisteredOwner => "RegisteredOwner"
  | .Profiles => "Profiles"
  | .Popularity => "Popularity"
  | .PriceBand => "PriceBand"
  | .Difference => "Difference"
  | .Drift => "Drift"
  | .UserAgents => "UserAgents"
  | .Custom _ => "Custom"

/-- Embeds PropertyName::to_str: Custom yields its payload verbatim, every
other variant its AsRefStr name. -/
def PropertyName.to_str : PropertyName → String
  | .Custom s => s
  | p => p.asRef

/-- Embeds enum EvidenceName of src/device_detection.rs. -/
inductive EvidenceName where
  | UserAgent
  | SecChUa
  | SecChPlatform
  | Custom (s : String)
  deriving DecidableEq, Repr

/-- Embeds EvidenceName::as_str with the strum serialize attributes of the
source ("user-agent", "sec-ch-ua", "sec-ch-platform"); Custom yields its
payload verbatim. -/
def EvidenceName.as_str : EvidenceName → String
  | .UserAgent => "user-agent"
  | .SecChUa => "sec-ch-ua"
  | .SecChPlatform => "sec-ch-platform"
  | .Custom s => s

/-- Embeds struct ManagerConfig of src/device_detection.rs. -/
structure ManagerConfig where
  data_file_path : String
  property_names : Option (List PropertyName)

/-- One call across the native boundary, recording the arguments the
wrapper hands to the engine. Every modelled operation returns the list of
native calls it performed. -/
inductive NativeCall where
  | evidenceCreate (capacity : Nat)
  | evidenceAddString (key value : String)
  | resultsHashCreate
  | resultsHashFromEvidence
  | resultsHashGetValuesString (propertyName : String) (bufLen : Nat)
  | hashInitManagerFromFile (properties : Option String) (filePath : String)
  deriving DecidableEq, Repr

/-- Embeds struct Evidence of src/device_detection.rs: the retained CString
pairs; the native handle itself is opaque. -/
structure Evidence where
  evidence_data : List (String × String)
  deriving DecidableEq, Repr

/-- Models the EXCEPTION_SET discipline of the native engine: writing a
report into an exception slot is a no-op when the slot is a null pointer,
and replaces the state when the slot is non-null and the engine reports. -/
def writeException (reports : Bool) (status : Nat) (message : Option String) :
    Option ExceptionState → Option ExceptionState
  | none => none
  | some prev => if reports then some ⟨status, message⟩ else some prev

/-- Oracle for the engine calls made by ResultData::new: whether
ResultsHashCreate returns null, and the exception report (if any) the
engine would make during ResultsHashFromEvidence. -/
structure ResultsEngine where
  createNull : Bool
  reports : Bool
  status : Nat
  message : Option String

/-- Embeds struct ResultData of src/device_detection.rs (the native results
pointer is opaque, so the wrapper state is empty). -/
structure ResultData where
  deriving DecidableEq, Repr

/-- Embeds ResultData::new of src/device_detection.rs: ResultsHashCreate
(null checked), then ResultsHashFromEvidence called with a null exception
pointer (the source passes null_mut()), then verify_exception on that same
pointer. -/
def ResultData.new (eng : ResultsEngine) :
    FiftyOneDegreesResult ResultData × List NativeCall :=
  if eng.createNull then
    (.error (.UnsafeOperationError "Failed to create result object: got null"),
      [.resultsHashCreate])
  else
    let exception : Option ExceptionState := none
    let exception := writeException eng.reports eng.status eng.message exception
    match verify_exception exception .ApplyEvidence with
    | .error e => (.error e, [.resultsHashCreate, .resultsHashFromEvidence])
    | .ok _ => (.ok ⟨⟩, [.resultsHashCreate, .resultsHashFromEvidence])

/-- Oracle for the engine calls made by Evidence and Manager::detect. -/
structure DetectEngine where
  evidenceCreateNull : Bool
  addStringNull : String → String → Bool
  results : ResultsEngine

/-- Embeds Evidence::new of src/device_detection.rs. -/
def Evidence.new (eng : DetectEngine) (capacity : Nat) :
    FiftyOneDegreesResult Evidence × List NativeCall :=
  if eng.evidenceCreateNull then
    (.error (.UnsafeOperationError "Failed to create evidence object: got null"),
      [.evidenceCreate capacity])
  else
    (.ok ⟨[]⟩, [.evidenceCreate capacity])

/-- Embeds Evidence::add of src/device_detection.rs: both strings are
encoded first (EvidenceKey then EvidenceValue kinds), then
EvidenceAddString is called and its null return checked, then the pair is
retained. -/
def Evidence.add (eng : DetectEngine) (ev : Evidence) (key val : String) :
    FiftyOneDegreesResult Evidence × List NativeCall :=
  match build_cstring .EvidenceKey key with
  | .error e => (.error e, [])
  | .ok key_cstring =>
    match build_cstring .EvidenceValue val with
    | .error e => (.error e, [])
    | .ok val_cstring =>
      if eng.addStringNull key val then
        (.error (.UnsafeOperationError ("Failed add evidence key=" ++ key ++ ": got null")),
          [.evidenceAddString key val])
      else
        (.ok ⟨ev.evidence_data ++ [(key_cstring, val_cstring)]⟩,
          [.evidenceAddString key val])

/-- The for-loop of Manager::detect: add every pair in order, stopping at
the first error. -/
def addAllEvidence (eng : DetectEngine) (ev : Evidence) :
    List (EvidenceName × String) → FiftyOneDegreesResult Evidence × List NativeCall
  | [] => (.ok ev, [])
  | (key, val) :: rest =>
    match Evidence.add eng ev key.as_str val with
    | (.error e, t) => (.error e, t)
    | (.ok ev2, t) =>
      match addAllEvidence eng ev2 rest with
      | (r, t2) => (r, t ++ t2)

/-- Oracle for one ResultsHashGetValuesString call: the full rendered value
the engine holds for the queried property (multi-valued results already
joined by the separator), the required length the engine reports for it,
and the exception report (if any) the engine would make. Per the engine
contract, when the reported required length fits the buffer the engine has
written the whole null-terminated value; otherwise at most bufLen bytes. -/
structure ReadEngine where
  value : String
  requiredLen : Nat
  reports : Bool
  status : Nat
  message : Option String

/-- What a CStr decode of the buffer yields after the engine call: the full
value when the reported required length fits the buffer, a prefix of at
most bufLen - 1 characters otherwise (the buffer is NUL-terminated). -/
def engineWrittenBuffer (eng : ReadEngine) (bufLen : Nat) : String :=
  if eng.requiredLen ≤ bufLen then eng.value else eng.value.take (bufLen - 1)

/-- Embeds ResultData::get_value_as_string of src/device_detection.rs:
encode the property name, 64-byte buffer, encode the separator ", ", call
the engine with a null exception pointer (the source passes null_mut()),
verify that pointer, error when the required length exceeds the buffer
length, error when the buffer length is zero, else decode and filter out
the empty string and the sentinels "Unknown" and "N/A". -/
def ResultData.get_value_as_string (eng : ReadEngine) (property_name : PropertyName) :
    FiftyOneDegreesResult (Option String) × List NativeCall :=
  match build_cstring .PropertyName property_name.to_str with
  | .error e => (.error e, [])
  | .ok property_name_cstring =>
    let bufLen : Nat := 64
    match build_cstring .HashResultSeparator ", " with
    | .error e => (.error e, [])
    | .ok _sep =>
      let exception : Option ExceptionState := none
      let required_len := eng.requiredLen
      let exception := writeException eng.reports eng.status eng.message exception
      let trace := [NativeCall.resultsHashGetValuesString property_name_cstring bufLen]
      match verify_exception exception .ReadProperty with
      | .error e => (.error e, trace)
      | .ok _ =>
        if required_len > bufLen then
          (.error (.UnsafeOperationError ("Buffer too small for property: " ++
            property_name.asRef ++ ", expected: " ++ toString required_len ++
            ", actual: " ++ toString bufLen)), trace)
        else if bufLen == 0 then
          (.error (.UnsafeOperationError ("No data written for property: " ++
            property_name.asRef)), trace)
        else
          let val_str := engineWrittenBuffer eng bufLen
          (.ok ((some val_str).filter
            (fun s => !s.isEmpty && s != "Unknown" && s != "N/A")), trace)

/-- Embeds ResultData::get_value of src/device_detection.rs: identical to
get_value_as_string except the property name is a raw string, the buffer is
128 bytes, and the filter collapses only the empty string. -/
def ResultData.get_value (eng : ReadEngine) (property_name : String) :
    FiftyOneDegreesResult (Option String) × List NativeCall :=
  match build_cstring .PropertyName property_name with
  | .error e => (.error e, [])
  | .ok property_name_cstring =>
    let bufLen : Nat := 128
    match build_cstring .HashResultSeparator ", " with
    | .error e => (.error e, [])
    | .ok _sep =>
      let exception : Option ExceptionState := none
      let required_len := eng.requiredLen
      let exception := writeException eng.reports eng.status eng.message exception
      let trace := [NativeCall.resultsHashGetValuesString property_name_cstring bufLen]
      match verify_exception exception .ReadProperty with
      | .error e => (.error e, trace)
      | .ok _ =>
        if required_len > bufLen then
          (.error (.UnsafeOperationError ("Buffer too small for property: " ++
            property_name ++ ", expected: " ++ toString required_len ++
            ", actual: " ++ toString bufLen)), trace)
        else if bufLen == 0 then
          (.error (.UnsafeOperationError ("No data written for property: " ++
            property_name)), trace)
        else
          let val_str := engineWrittenBuffer eng bufLen
          (.ok ((some val_str).filter (fun s => !s.isEmpty)), trace)

/-- Embeds struct Manager of src/device_detection.rs (the native resource
manager is opaque, so the wrapper state is empty). -/
structure Manager where
  deriving DecidableEq, Repr

/-- Oracle for the engine and host calls made by Manager::new: the result
of Path::canonicalize (none models a host I/O failure), the status code
HashInitManagerFromFile returns, and the exception report (if any) the
engine would make during that call. -/
structure InitEngine where
  canonicalize : String → Option String
  status : Nat
  reports : Bool
  message : Option String

/-- Embeds Manager::new of src/device_detection.rs: verify the data file
path, canonicalize it (Lean strings are always valid UTF-8 so the to_str
conversion of the source cannot fail in the model), encode it with kind
FilePath, build the comma-joined required-properties string when the
allow-list is present (kind PropertyName) or pass the null sentinel when
absent, call HashInitManagerFromFile with a null exception pointer (the
source passes null_mut()), verify that pointer, then check the returned
status against SUCCESS. -/
def Manager.new (fs : FileSystem) (eng : InitEngine) (config : ManagerConfig) :
    FiftyOneDegreesResult Manager × List NativeCall :=
  match verify_data_file_path fs config.data_file_path with
  | .error e => (.error e, [])
  | .ok _ =>
    match eng.canonicalize config.data_file_path with
    | none => (.error (.IOError "Failed to canonicalize data file path" none), [])
    | some canonical =>
      match build_cstring .FilePath canonical with
      | .error e => (.error e, [])
      | .ok path_cstring =>
        let propertiesResult : FiftyOneDegreesResult (Option String) :=
          match config.property_names with
          | some names =>
            let property_names := String.intercalate "," (names.map PropertyName.to_str)
            match build_cstring .PropertyName property_names with
            | .error e => .error e
            | .ok properties_cstring => .ok (some properties_cstring)
          | none => .ok none
        match propertiesResult with
        | .error e => (.error e, [])
        | .ok properties =>
          let exception : Option ExceptionState := none
          let status := eng.status
          let exception := writeException eng.reports eng.status eng.message exception
          let trace := [NativeCall.hashInitManagerFromFile properties path_cstring]
          match verify_exception exception .InitManager with
          | .error e => (.error e, trace)
          | .ok _ =>
            if status ≠ STATUS_SUCCESS then
              (.error (.InternalApiError .InitManager status (status_to_error_message status)
                "Status check failed"), trace)
            else
              (.ok ⟨⟩, trace)

/-- Embeds Manager::detect of src/device_detection.rs: empty evidence is
rejected with an AssertionError before anything else, then an Evidence
collection sized to the input is created, every pair added in order, and a
ResultData built from it. -/
def Manager.detect (eng : DetectEngine) (evidence_data : List (EvidenceName × String)) :
    FiftyOneDegreesResult ResultData × List NativeCall :=
  if evidence_data.length == 0 then
    (.error (.AssertionError .CreateEvidence "Evidence data must contain at least one item"), [])
  else
    match Evidence.new eng evidence_data.length with
    | (.error e, t) => (.error e, t)
    | (.ok evidence, t) =>
      match addAllEvidence eng evidence evidence_data with
      | (.error e, t2) => (.error e, t ++ t2)
      | (.ok _, t2) =>
        match ResultData.new eng.results with
        | (.error e, t3) => (.error e, t ++ t2 ++ t3)
        | (.ok result, t3) => (.ok result, t ++ t2 ++ t3)

/-! Helper lemmas shared by several claim proofs. -/

/-- A failed build_cstring always carries the CStringCreationError of its kind. -/
theorem build_cstring_error_eq (kind : CStringKind) (str : String) (e : FiftyOneDegreesError)
    (h : build_cstring kind str = .error e) : e = .CStringCreationError kind := by
  unfold build_cstring at h
  split at h
  · injection h with h
    exact h.symm
  · exact Except.noConfusion h

/-- Evidence.new never fails with an AssertionError. -/
theorem evidence_new_not_assertion (eng : DetectEngine) (capacity : Nat)
    (o : Operation) (m : String) :
    (Evidence.new eng capacity).1 ≠ .error (.AssertionError o m) := by
  unfold Evidence.new
  split <;> simp

/-- Evidence.add never fails with an AssertionError. -/
theorem evidence_add_not_assertion (eng : DetectEngine) (ev : Evidence) (key val : String)
    (o : Operation) (m : String) :
    (Evidence.add eng ev key val).1 ≠ .error (.AssertionError o m) := by
  unfold Evidence.add
  rcases h1 : build_cstring .EvidenceKey key with e1 | k1
  · have he := build_cstring_error_eq _ _ _ h1
    subst he
    simp [h1]
  · rcases h2 : build_cstring .EvidenceValue val with e2 | v2
    · have he := build_cstring_error_eq _ _ _ h2
      subst he
      simp [h1, h2]
    · simp only [h1, h2]
      split <;> simp

/-- addAllEvidence never fails with an AssertionError. -/
theorem addAllEvidence_not_assertion (eng : DetectEngine) (ev : Evidence)
    (l : List (EvidenceName × String)) (o : Operation) (m : String) :
    (addAllEvidence eng ev l).1 ≠ .error (.AssertionError o m) := by
  induction l generalizing ev with
  | nil => simp [addAllEvidence]
  | cons p rest ih =>
    obtain ⟨key, val⟩ := p
    unfold addAllEvidence
    rcases h : Evidence.add eng ev key.as_str val with ⟨r, t⟩
    cases r with
    | error e =>
      have := evidence_add_not_assertion eng ev key.as_str val o m
      rw [h] at this
      simpa using this
    | ok ev2 =>
      rcases h2 : addAllEvidence eng ev2 rest with ⟨r2, t2⟩
      have := ih ev2
      rw [h2] at this
      simpa [h, h2] using this

/-- ResultData.new never fails with an AssertionError. -/
theorem resultdata_new_not_assertion (reng : ResultsEngine) (o : Operation) (m : String) :
    (ResultData.new reng).1 ≠ .error (.AssertionError o m) := by
  unfold ResultData.new
  split
  · simp
  · simp [writeException, verify_exception]

/-- The concrete failing input for claim C1: the engine reports the
CORRUPT_DATA status (code 2) while applying evidence. -/
def corruptApplyEngine : ResultsEngine :=
  { createNull := false, reports := true, status := 2, message := some "corrupt data" }

/-- C1: the claim says a non-success exception reported by the engine
during the evidence-application step is surfaced as an InternalApiError.
The code cannot do this: ResultData::new passes null_mut() as the
exception out-parameter, so verify_exception always sees a null pointer
and succeeds, and construction returns Ok even when the engine would
report a corrupt-data exception. Had a non-null exception carrying status
2 been checked, verify_exception would indeed have produced the
InternalApiError the claim describes. -/
theorem c1_exception_never_surfaced :
    (ResultData.new corruptApplyEngine).1 = .ok ⟨⟩ ∧
    verify_exception (some ⟨2, some "corrupt data"⟩) .ApplyEvidence =
      .error (.InternalApiError .ApplyEvidence 2 "Corrupt data" "corrupt data") := by
  exact ⟨rfl, rfl⟩

/-- C2: Manager::detect on the empty evidence slice fails with the
AssertionError of the create-evidence operation and performs no native
call; on every non-empty slice this precondition branch is not taken (no
AssertionError of any kind can be produced). -/
theorem c2_empty_evidence_precondition (eng : DetectEngine) :
    Manager.detect eng [] =
      (.error (.AssertionError .CreateEvidence "Evidence data must contain at least one item"),
        ([] : List NativeCall)) ∧
    ∀ evidence_data : List (EvidenceName × String), evidence_data ≠ [] →
      ∀ o m, (Manager.detect eng evidence_data).1 ≠ .error (.AssertionError o m) := by
  constructor
  · rfl
  · intro l hl o m
    unfold Manager.detect
    split
    · rename_i h
      exact absurd (by simpa [List.length_eq_zero] using h) hl
    · split
      · rename_i e t heq
        have := evidence_new_not_assertion eng l.length o m
        rw [heq] at this
        simpa using this
      · rename_i evd t heq
        split
        · rename_i e t2 heq2
          have := addAllEvidence_not_assertion eng evd l o m
          rw [heq2] at this
          simpa using this
        · rename_i evd2 t2 heq2
          split
          · rename_i e t3 heq3
            have := resultdata_new_not_assertion eng.results o m
            rw [heq3] at this
            simpa using this
          · simp

/-- A detect engine on which every native call succeeds. -/
def simpleDetectEngine : DetectEngine :=
  { evidenceCreateNull := false
    addStringNull := fun _ _ => false
    results := { createNull := false, reports := false, status := 0, message := none } }

/-- Witness for C2 at a concrete engine and a concrete one-element slice. -/
theorem c2_empty_evidence_precondition_witness :
    Manager.detect simpleDetectEngine [] =
      (.error (.AssertionError .CreateEvidence "Evidence data must contain at least one item"),
        ([] : List NativeCall)) ∧
    (([(EvidenceName.UserAgent, "Mozilla")] : List (EvidenceName × String)) ≠ [] ∧
      (Manager.detect simpleDetectEngine [(EvidenceName.UserAgent, "Mozilla")]).1 ≠
        .error (.AssertionError .CreateEvidence "Evidence data must contain at least one item")) :=
  ⟨(c2_empty_evidence_precondition simpleDetectEngine).1,
    by simp,
    (c2_empty_evidence_precondition simpleDetectEngine).2 _ (by simp) .CreateEvidence _⟩

/-- C8: the status-code description map of status_to_error_message is
injective on the enumerated engine codes 0..32, and every code outside
that set maps to the fallback description "Unknown error". -/
theorem c8_status_map_injective_with_fallback :
    (∀ a, a ≤ 32 → ∀ b, b ≤ 32 →
      status_to_error_message a = status_to_error_message b → a = b) ∧
    (∀ s, 32 < s → status_to_error_message s = "Unknown error") := by
  constructor
  · decide
  · intro s h
    have hs : s = (s - 33) + 33 := by omega
    rw [hs]
    rfl

/-- Witness for C8 at concrete codes: 2 maps to its own description and
the out-of-range code 33 maps to the fallback description. -/
theorem c8_status_map_injective_with_fallback_witness :
    ((2 : Nat) ≤ 32 ∧ status_to_error_message 2 = status_to_error_message 2 ∧ (2 : Nat) = 2) ∧
    (32 < 33 ∧ status_to_error_message 33 = "Unknown error") :=
  ⟨⟨by decide, rfl,
    c8_status_map_injective_with_fallback.1 2 (by decide) 2 (by decide) rfl⟩,
    by decide,
    c8_status_map_injective_with_fallback.2 33 (by decide)⟩

/-- C3: a string with an embedded null byte makes the operation using it
fail with the CStringCreationError of the corresponding kind before any
native call (empty native trace): the evidence key and evidence value in
Evidence::add, and the property name in both property lookups. -/
theorem c3_embedded_nul_fails_before_native_call :
    (∀ (eng : DetectEngine) (ev : Evidence) (key val : String),
      hasInteriorNul key = true →
      Evidence.add eng ev key val = (.error (.CStringCreationError .EvidenceKey), [])) ∧
    (∀ (eng : DetectEngine) (ev : Evidence) (key val : String),
      hasInteriorNul key = false → hasInteriorNul val = true →
      Evidence.add eng ev key val = (.error (.CStringCreationError .EvidenceValue), [])) ∧
    (∀ (reng : ReadEngine) (p : PropertyName),
      hasInteriorNul p.to_str = true →
      ResultData.get_value_as_string reng p =
        (.error (.CStringCreationError .PropertyName), [])) ∧
    (∀ (reng : ReadEngine) (s : String),
      hasInteriorNul s = true →
      ResultData.get_value reng s = (.error (.CStringCreationError .PropertyName), [])) := by
  refine ⟨?_, ?_, ?_, ?_⟩
  · intro eng ev key val h
    simp [Evidence.add, build_cstring, h]
  · intro eng ev key val hk hv
    simp [Evidence.add, build_cstring, hk, hv]
  · intro reng p h
    simp [ResultData.get_value_as_string, build_cstring, h]
  · intro reng s h
    simp [ResultData.get_value, build_cstring, h]

/-- Witness for C3 at concrete strings carrying an embedded null byte. -/
theorem c3_embedded_nul_fails_before_native_call_witness :
    (hasInteriorNul "k\x00ey" = true ∧
      Evidence.add simpleDetectEngine ⟨[]⟩ "k\x00ey" "v" =
        (.error (.CStringCreationError .EvidenceKey), [])) ∧
    (hasInteriorNul "key" = false ∧ hasInteriorNul "v\x00al" = true ∧
      Evidence.add simpleDetectEngine ⟨[]⟩ "key" "v\x00al" =
        (.error (.CStringCreationError .EvidenceValue), [])) ∧
    (hasInteriorNul (PropertyName.Custom "Bro\x00wser").to_str = true ∧
      ResultData.get_value_as_string ⟨"v", 1, false, 0, none⟩ (.Custom "Bro\x00wser") =
        (.error (.CStringCreationError .PropertyName), [])) ∧
    (hasInteriorNul "Bro\x00wser" = true ∧
      ResultData.get_value ⟨"v", 1, false, 0, none⟩ "Bro\x00wser" =
        (.error (.CStringCreationError .PropertyName), [])) :=
  ⟨⟨by decide, c3_embedded_nul_fails_before_native_call.1 _ _ _ _ (by decide)⟩,
    ⟨by decide, by decide,
      c3_embedded_nul_fails_before_native_call.2.1 _ _ _ _ (by decide) (by decide)⟩,
    ⟨by decide, c3_embedded_nul_fails_before_native_call.2.2.1 _ _ (by decide)⟩,
    ⟨by decide, c3_embedded_nul_fails_before_native_call.2.2.2 _ _ (by decide)⟩⟩

/-- A non-empty string has isEmpty false. -/
theorem isEmpty_false_of_ne (v : String) (h : v ≠ "") : v.isEmpty = false := by
  rcases Bool.eq_false_or_eq_true v.isEmpty with hb | hb
  · exact absurd ((String.isEmpty_iff v).mp hb) h
  · exact hb

/-- The sentinel filter of get_value_as_string, rephrased with
propositional conditions. -/
theorem sentinel_filter_eq (v : String) :
    (some v).filter (fun s => !s.isEmpty && s != "Unknown" && s != "N/A") =
      (if v = "" ∨ v = "Unknown" ∨ v = "N/A" then none else some v) := by
  simp only [Option.filter]
  by_cases h1 : v = ""
  · simp [h1, String.isEmpty_iff]
  · by_cases h2 : v = "Unknown"
    · simp [h2]
    · by_cases h3 : v = "N/A"
      · simp [h3]
      · simp [h1, h2, h3, isEmpty_false_of_ne v h1]

/-- The empty-only filter of get_value, rephrased with a propositional
condition. -/
theorem empty_filter_eq (v : String) :
    (some v).filter (fun s => !s.isEmpty) = (if v = "" then none else some v) := by
  simp only [Option.filter]
  by_cases h1 : v = ""
  · simp [h1, String.isEmpty_iff]
  · simp [h1, isEmpty_false_of_ne v h1]

/-- C4: when the engine-reported required length fits the buffer, the
filtering read mode collapses the empty string and the sentinels "Unknown"
and "N/A" to no value and returns any other value literally, while the
non-filtering mode collapses only the empty string and returns "Unknown"
and "N/A" literally. -/
theorem c4_sentinel_filtering_modes (reng : ReadEngine) (p : PropertyName) (s : String)
    (hp : hasInteriorNul p.to_str = false) (hs : hasInteriorNul s = false) :
    (reng.requiredLen ≤ 64 →
      (ResultData.get_value_as_string reng p).1 =
        .ok (if reng.value = "" ∨ reng.value = "Unknown" ∨ reng.value = "N/A"
          then none else some reng.value)) ∧
    (reng.requiredLen ≤ 128 →
      (ResultData.get_value reng s).1 =
        .ok (if reng.value = "" then none else some reng.value)) := by
  have hsep : hasInteriorNul ", " = false := by decide
  constructor
  · intro h64
    have hgt : ¬ reng.requiredLen > 64 := by omega
    simp [ResultData.get_value_as_string, build_cstring, hp, hsep, writeException,
      verify_exception, engineWrittenBuffer, hgt, h64, sentinel_filter_eq]
  · intro h128
    have hgt : ¬ reng.requiredLen > 128 := by omega
    simp [ResultData.get_value, build_cstring, hs, hsep, writeException,
      verify_exception, engineWrittenBuffer, hgt, h128, empty_filter_eq]

/-- Witness for C4 at a concrete engine result whose value is the sentinel
"Unknown" and fits both buffers. -/
theorem c4_sentinel_filtering_modes_witness :
    (ResultData.get_value_as_string ⟨"Unknown", 8, false, 0, none⟩ .BrowserName).1 =
      .ok none ∧
    (ResultData.get_value ⟨"Unknown", 8, false, 0, none⟩ "BrowserName").1 =
      .ok (some "Unknown") := by
  have h := c4_sentinel_filtering_modes ⟨"Unknown", 8, false, 0, none⟩ .BrowserName
    "BrowserName" (by decide) (by decide)
  refine ⟨?_, ?_⟩
  · have := h.1 (by decide)
    simpa using this
  · have := h.2 (by decide)
    simpa using this

/-- C5: in both read modes, an engine-reported required length exceeding
the fixed buffer length yields an error rather than a silently truncated
string, and every successfully returned value is the full engine value,
never a truncation of it. -/
theorem c5_overflow_errors_never_truncates (reng : ReadEngine) (p : PropertyName) (s : String)
    (hp : hasInteriorNul p.to_str = false) (hs : hasInteriorNul s = false) :
    (64 < reng.requiredLen → ∃ msg,
      (ResultData.get_value_as_string reng p).1 = .error (.UnsafeOperationError msg)) ∧
    (128 < reng.requiredLen → ∃ msg,
      (ResultData.get_value reng s).1 = .error (.UnsafeOperationError msg)) ∧
    (∀ v, (ResultData.get_value_as_string reng p).1 = .ok (some v) → v = reng.value) ∧
    (∀ v, (ResultData.get_value reng s).1 = .ok (some v) → v = reng.value) := by
  have hsep : hasInteriorNul ", " = false := by decide
  refine ⟨?_, ?_, ?_, ?_⟩
  · intro hgt
    refine ⟨"Buffer too small for property: " ++ p.asRef ++ ", expected: " ++
      toString reng.requiredLen ++ ", actual: " ++ toString (64 : Nat), ?_⟩
    simp [ResultData.get_value_as_string, build_cstring, hp, hsep, writeException,
      verify_exception, hgt]
  · intro hgt
    refine ⟨"Buffer too small for property: " ++ s ++ ", expected: " ++
      toString reng.requiredLen ++ ", actual: " ++ toString (128 : Nat), ?_⟩
    simp [ResultData.get_value, build_cstring, hs, hsep, writeException,
      verify_exception, hgt]
  · intro v hv
    by_cases h64 : reng.requiredLen ≤ 64
    · rw [((c4_sentinel_filtering_modes reng p s hp hs).1 h64 :)] at hv
      split at hv
      · exact Option.noConfusion (Except.ok.injEq .. ▸ hv)
      · injection hv with hv
        injection hv with hv
        exact hv.symm
    · have hgt : ¬ reng.requiredLen ≤ 64 := h64
      simp [ResultData.get_value_as_string, build_cstring, hp, hsep, writeException,
        verify_exception, Nat.lt_of_not_le hgt] at hv
  · intro v hv
    by_cases h128 : reng.requiredLen ≤ 128
    · rw [((c4_sentinel_filtering_modes reng p s hp hs).2 h128 :)] at hv
      split at hv
      · exact Option.noConfusion (Except.ok.injEq .. ▸ hv)
      · injection hv with hv
        injection hv with hv
        exact hv.symm
    · simp [ResultData.get_value, build_cstring, hs, hsep, writeException,
        verify_exception, Nat.lt_of_not_le h128] at hv

/-- Witness for C5: an overflowing read errors, a fitting read returns the
whole value, at concrete engine results. -/
theorem c5_overflow_errors_never_truncates_witness :
    (64 < 200 ∧ ∃ msg, (ResultData.get_value_as_string ⟨"abc", 200, false, 0, none⟩
      .BrowserName).1 = .error (.UnsafeOperationError msg)) ∧
    (128 < 200 ∧ ∃ msg, (ResultData.get_value ⟨"abc", 200, false, 0, none⟩
      "BrowserName").1 = .error (.UnsafeOperationError msg)) ∧
    ((ResultData.get_value ⟨"abc", 3, false, 0, none⟩ "BrowserName").1 = .ok (some "abc") ∧
      "abc" = (⟨"abc", 3, false, 0, none⟩ : ReadEngine).value) := by
  have h := c5_overflow_errors_never_truncates ⟨"abc", 200, false, 0, none⟩
    .BrowserName "BrowserName" (by decide) (by decide)
  have h2 := c5_overflow_errors_never_truncates ⟨"abc", 3, false, 0, none⟩
    .BrowserName "BrowserName" (by decide) (by decide)
  refine ⟨⟨by decide, h.1 (by decide)⟩, ⟨by decide, h.2.1 (by decide)⟩, ?_, ?_⟩
  · rfl
  · exact h2.2.2.2 "abc" rfl

/-- C6: a nonexistent dataset path makes Manager::new fail with the
read-data-file AssertionError variant "file does not exist" before any
native call; an existing path that is not a regular file fails with the
same error category but the distinct variant "is not a file", also before
any native call. -/
theorem c6_data_file_path_preconditions (fs : FileSystem) (eng : InitEngine)
    (config : ManagerConfig) :
    (fs.pathExists config.data_file_path = false →
      Manager.new fs eng config =
        (.error (.AssertionError .ReadDataFile "file does not exist"), [])) ∧
    (fs.pathExists config.data_file_path = true →
      fs.pathIsFile config.data_file_path = false →
      Manager.new fs eng config =
        (.error (.AssertionError .ReadDataFile "is not a file"), [])) := by
  constructor
  · intro h
    simp [Manager.new, verify_data_file_path, h,
      FiftyOneDegreesError.newReadFileAssertionError, ReadFileError.asRef]
  · intro h1 h2
    simp [Manager.new, verify_data_file_path, h1, h2,
      FiftyOneDegreesError.newReadFileAssertionError, ReadFileError.asRef]

/-- Witness for C6 at a concrete filesystem in which "missing.hash" is
absent and "somedir" exists but is not a regular file. -/
theorem c6_data_file_path_preconditions_witness :
    ((FileSystem.mk (fun _ => false) (fun _ => false)).pathExists "missing.hash" = false ∧
      Manager.new (FileSystem.mk (fun _ => false) (fun _ => false))
        ⟨fun p => some p, 0, false, none⟩ ⟨"missing.hash", none⟩ =
        (.error (.AssertionError .ReadDataFile "file does not exist"), [])) ∧
    ((FileSystem.mk (fun _ => true) (fun _ => false)).pathExists "somedir" = true ∧
      (FileSystem.mk (fun _ => true) (fun _ => false)).pathIsFile "somedir" = false ∧
      Manager.new (FileSystem.mk (fun _ => true) (fun _ => false))
        ⟨fun p => some p, 0, false, none⟩ ⟨"somedir", none⟩ =
        (.error (.AssertionError .ReadDataFile "is not a file"), [])) :=
  ⟨⟨rfl, (c6_data_file_path_preconditions _ _ _).1 rfl⟩,
    ⟨rfl, rfl, (c6_data_file_path_preconditions _ _ _).2 rfl rfl⟩⟩

/-- C7: with a valid dataset path, the required-properties argument handed
to the dataset-load entry point is exactly the comma-joined canonical
tokens of the allow-list when it is present, and the null sentinel when it
is absent; in both cases that entry point is the only native call. -/
theorem c7_allowlist_comma_joined (fs : FileSystem) (eng : InitEngine)
    (config : ManagerConfig) (canonical : String)
    (hex : fs.pathExists config.data_file_path = true)
    (hf : fs.pathIsFile config.data_file_path = true)
    (hc : eng.canonicalize config.data_file_path = some canonical)
    (hnul : hasInteriorNul canonical = false) :
    (∀ names, config.property_names = some names →
      hasInteriorNul (String.intercalate "," (names.map PropertyName.to_str)) = false →
      (Manager.new fs eng config).2 =
        [.hashInitManagerFromFile
          (some (String.intercalate "," (names.map PropertyName.to_str))) canonical]) ∧
    (config.property_names = none →
      (Manager.new fs eng config).2 = [.hashInitManagerFromFile none canonical]) := by
  constructor
  · intro names hnames hjoin
    simp only [Manager.new, verify_data_file_path, hex, hf, hc, hnames, build_cstring,
      hnul, hjoin, Bool.false_eq_true, if_false, Bool.not_true, writeException,
      verify_exception]
    split <;> rfl
  · intro hnames
    simp only [Manager.new, verify_data_file_path, hex, hf, hc, hnames, build_cstring,
      hnul, Bool.false_eq_true, if_false, Bool.not_true, writeException,
      verify_exception]
    split <;> rfl

/-- Witness for C7 at a concrete configuration: the allow-list containing
BrowserName, IsMobile and a custom token joins to
"BrowserName,IsMobile,MyToken", and the absent allow-list passes the null
sentinel. -/
theorem c7_allowlist_comma_joined_witness :
    ((FileSystem.mk (fun _ => true) (fun _ => true)).pathExists "data.hash" = true ∧
      (Manager.new (FileSystem.mk (fun _ => true) (fun _ => true))
        ⟨fun p => some ("/abs/" ++ p), 0, false, none⟩
        ⟨"data.hash", some [.BrowserName, .IsMobile, .Custom "MyToken"]⟩).2 =
        [.hashInitManagerFromFile (some "BrowserName,IsMobile,MyToken") "/abs/data.hash"]) ∧
    (Manager.new (FileSystem.mk (fun _ => true) (fun _ => true))
      ⟨fun p => some ("/abs/" ++ p), 0, false, none⟩ ⟨"data.hash", none⟩).2 =
      [.hashInitManagerFromFile none "/abs/data.hash"] := by
  refine ⟨⟨rfl, ?_⟩, ?_⟩
  · have h := (c7_allowlist_comma_joined (FileSystem.mk (fun _ => true) (fun _ => true))
      ⟨fun p => some ("/abs/" ++ p), 0, false, none⟩
      ⟨"data.hash", some [.BrowserName, .IsMobile, .Custom "MyToken"]⟩
      "/abs/data.hash" rfl rfl rfl (by decide)).1
      [.BrowserName, .IsMobile, .Custom "MyToken"] rfl (by decide)
    simpa using h
  · exact (c7_allowlist_comma_joined (FileSystem.mk (fun _ => true) (fun _ => true))
      ⟨fun p => some ("/abs/" ++ p), 0, false, none⟩ ⟨"data.hash", none⟩
      "/abs/data.hash" rfl rfl rfl (by decide)).2 rfl

/-- A 100-character rendered value, longer than the 64-byte buffer of the
filtering mode and shorter than the 128-byte buffer of the other mode. -/
def longValue : String := String.mk (List.replicate 100 'a')

/-- An engine result holding longValue and reporting the given required
length, with no exception. -/
def longReadEngine (n : Nat) : ReadEngine :=
  { value := longValue, requiredLen := n, reports := false, status := 0, message := none }

/-- An engine result holding a short value that fits both buffers. -/
def shortReadEngine (n : Nat) : ReadEngine :=
  { value := "abc", requiredLen := n, reports := false, status := 0, message := none }

/-- C9: the two property-read paths use different fixed buffer sizes, 64
bytes in get_value_as_string and 128 bytes in get_value: a required length
of exactly 64 still succeeds in the filtering mode while 65 already fails
there yet succeeds in the other mode; 128 succeeds in get_value while 129
fails; in particular, on the same engine result needing 100 bytes the
filtering mode returns the buffer-too-small error and the non-filtering
mode returns the value, so the two modes are not equivalent up to sentinel
filtering. -/
theorem c9_buffer_sizes_differ_and_diverge :
    (ResultData.get_value_as_string (shortReadEngine 64) .BrowserName).1 =
      .ok (some "abc") ∧
    (ResultData.get_value_as_string (shortReadEngine 65) .BrowserName).1 =
      .error (.UnsafeOperationError
        "Buffer too small for property: BrowserName, expected: 65, actual: 64") ∧
    (ResultData.get_value (shortReadEngine 65) "BrowserName").1 = .ok (some "abc") ∧
    (ResultData.get_value_as_string (longReadEngine 100) .BrowserName).1 =
      .error (.UnsafeOperationError
        "Buffer too small for property: BrowserName, expected: 100, actual: 64") ∧
    (ResultData.get_value (longReadEngine 100) "BrowserName").1 = .ok (some longValue) ∧
    (ResultData.get_value (shortReadEngine 128) "BrowserName").1 = .ok (some "abc") ∧
    (ResultData.get_value (shortReadEngine 129) "BrowserName").1 =
      .error (.UnsafeOperationError
        "Buffer too small for property: BrowserName, expected: 129, actual: 128") :=
  ⟨rfl, rfl, rfl, rfl, rfl, rfl, rfl⟩

/-- C10: the displayed context of an encoding failure does not match the
string that failed: the FilePath kind renders as "evidence key", so a
dataset path whose canonical form carries an embedded null makes
Manager::new fail with a CStringCreationError whose message reports
"evidence key"; the EvidenceKey kind renders as "evidence value", so an
evidence key with an embedded null makes Evidence::add fail with a
CStringCreationError whose message reports "evidence value". -/
theorem c10_swapped_context_labels (fs : FileSystem) (eng : InitEngine)
    (config : ManagerConfig) (canonical : String)
    (hex : fs.pathExists config.data_file_path = true)
    (hf : fs.pathIsFile config.data_file_path = true)
    (hc : eng.canonicalize config.data_file_path = some canonical)
    (hnul : hasInteriorNul canonical = true) :
    ((Manager.new fs eng config).1 = .error (.CStringCreationError .FilePath) ∧
      (FiftyOneDegreesError.CStringCreationError .FilePath).message =
        "CString creation error for: evidence key") ∧
    (∀ (deng : DetectEngine) (ev : Evidence) (key val : String),
      hasInteriorNul key = true →
      ((Evidence.add deng ev key val).1 = .error (.CStringCreationError .EvidenceKey) ∧
        (FiftyOneDegreesError.CStringCreationError .EvidenceKey).message =
          "CString creation error for: evidence value")) := by
  constructor
  · constructor
    · simp [Manager.new, verify_data_file_path, hex, hf, hc, build_cstring, hnul]
    · rfl
  · intro deng ev key val hkey
    constructor
    · simp [Evidence.add, build_cstring, hkey]
    · rfl

/-- Witness for C10 at a concrete dataset path and evidence key, each with
an embedded null byte. -/
theorem c10_swapped_context_labels_witness :
    ((FileSystem.mk (fun _ => true) (fun _ => true)).pathExists "data.hash" = true ∧
      hasInteriorNul "/abs/da\x00ta.hash" = true ∧
      (Manager.new (FileSystem.mk (fun _ => true) (fun _ => true))
        ⟨fun _ => some "/abs/da\x00ta.hash", 0, false, none⟩ ⟨"data.hash", none⟩).1 =
        .error (.CStringCreationError .FilePath) ∧
      (FiftyOneDegreesError.CStringCreationError .FilePath).message =
        "CString creation error for: evidence key") ∧
    (hasInteriorNul "k\x00ey" = true ∧
      (Evidence.add simpleDetectEngine ⟨[]⟩ "k\x00ey" "v").1 =
        .error (.CStringCreationError .EvidenceKey) ∧
      (FiftyOneDegreesError.CStringCreationError .EvidenceKey).message =
        "CString creation error for: evidence value") := by
  have h := c10_swapped_context_labels (FileSystem.mk (fun _ => true) (fun _ => true))
    ⟨fun _ => some "/abs/da\x00ta.hash", 0, false, none⟩ ⟨"data.hash", none⟩
    "/abs/da\x00ta.hash" rfl rfl rfl (by decide)
  exact ⟨⟨rfl, by decide, h.1.1, h.1.2⟩,
    ⟨by decide, (h.2 simpleDetectEngine ⟨[]⟩ "k\x00ey" "v" (by decide)).1,
      (h.2 simpleDetectEngine ⟨[]⟩ "k\x00ey" "v" (by decide)).2⟩⟩

end FiftyOneDegrees
